import Mathlib

/-!
Shallow embedding of the CheerLightTwitterAPI repository.

The Python sources embedded here are:
* `cheer_lights_twitter_api/cheer_lights_twitter_api.py` — the colour
  enumeration `CheerLightColours`, the `verify_colour` validator and the
  template-context construction of `tweet_payload`;
* `cheer_lights_twitter_api/tweepy_wrapper.py` — the `TweepyWrapper`
  connection lifecycle (`connect`, `disconnect`, `tweet`, `user_tweets`,
  `destroy_tweet`), with the vendor SDK (tweepy), the filesystem and the
  process environment modelled as explicit inputs (a `World` record) and
  with every externally visible side effect (file reads, environment
  reads, vendor network calls) recorded in an explicit effect trace;
* `cornhole_mqtt_client_tweeter.py` — the MQTT message reducer
  `on_message` over the six-hole game state.

Python exceptions are modelled with `Except`; Python `None` results with
`Option`. Logging calls are pure in the source (they mutate nothing that
the claims mention) and are not recorded in the effect trace.
-/

namespace CheerLights

/-- The 11 colours of `CheerLightColours(IntEnum)` in
`cheer_lights_twitter_api.py`. -/
inductive CheerLightColours where
  | RED
  | GREEN
  | BLUE
  | CYAN
  | WHITE
  | OLDLACE
  | PURPLE
  | MAGENTA
  | YELLOW
  | ORANGE
  | PINK
deriving DecidableEq, Repr

/-- The integer RGB value of each enum member (`RED = 0xFF0000`, ...). -/
def colourValue : CheerLightColours → Nat
  | .RED => 0xFF0000
  | .GREEN => 0x008000
  | .BLUE => 0x0000FF
  | .CYAN => 0x00FFFF
  | .WHITE => 0xFFFFFF
  | .OLDLACE => 0xFDF5E6
  | .PURPLE => 0x800080
  | .MAGENTA => 0xFF00FF
  | .YELLOW => 0xFFFF00
  | .ORANGE => 0xFFA500
  | .PINK => 0xFFC0CB

/-- The Python member name of each enum member. -/
def colourName : CheerLightColours → String
  | .RED => "RED"
  | .GREEN => "GREEN"
  | .BLUE => "BLUE"
  | .CYAN => "CYAN"
  | .WHITE => "WHITE"
  | .OLDLACE => "OLDLACE"
  | .PURPLE => "PURPLE"
  | .MAGENTA => "MAGENTA"
  | .YELLOW => "YELLOW"
  | .ORANGE => "ORANGE"
  | .PINK => "PINK"

/-- All members of the enumeration, in declaration order. -/
def allColours : List CheerLightColours :=
  [.RED, .GREEN, .BLUE, .CYAN, .WHITE, .OLDLACE, .PURPLE, .MAGENTA,
   .YELLOW, .ORANGE, .PINK]

/-- The key set of `CheerLightColours.__members__`. -/
def memberNames : List String := allColours.map colourName

/-- Model of Python `str.upper()` (the sources only ever compare the
result against the ASCII member names above, so the ASCII character map
is the relevant fragment; stated over the character list so that
concrete inputs evaluate). -/
def pyUpper (s : String) : String := ⟨s.data.map Char.toUpper⟩

/-- Model of the Python name-indexing `CheerLightColours[u]`: the member
whose name is `u`, if any (`KeyError` otherwise, handled at call sites). -/
def colourFromName (u : String) : Option CheerLightColours :=
  allColours.find? (fun c => colourName c = u)

/-- A Python value passed to `verify_colour`: a `CheerLightColours`
member, a `str`, or some other object (an `int` such as an RGB code, or
`None`). -/
inductive ColourInput where
  | enumVal (c : CheerLightColours)
  | strVal (s : String)
  | intVal (n : Int)
  | noneVal
deriving DecidableEq, Repr

/-- The exceptions `verify_colour` can raise: `TypeError` for a
non-string, non-enum input; `ValueError` for an unknown colour string. -/
inductive VerifyError where
  | invalidType
  | invalidColour
deriving DecidableEq, Repr

/-- `CheerLightTwitterAPI.verify_colour` (a `@staticmethod`: it touches
no object state). Raises `TypeError` unless the input is a
`CheerLightColours` member or a `str`; for a `str`, raises `ValueError`
unless `colour.upper()` is in `CheerLightColours.__members__`. -/
def verify_colour : ColourInput → Except VerifyError Unit
  | .enumVal _ => .ok ()
  | .strVal s =>
      if memberNames.contains (pyUpper s) then .ok ()
      else .error .invalidColour
  | .intVal _ => .error .invalidType
  | .noneVal => .error .invalidType

/-! ### Template context construction (`CheerLightTwitterAPI.tweet_payload`) -/

/-- A value stored in a jinja context dictionary (the sources put strings
and integers there). -/
inductive PyVal where
  | strVal (s : String)
  | intVal (n : Int)
deriving DecidableEq, Repr

/-- A Python `dict` used as a jinja context, modelled by its lookup
function (Python dicts have unique keys, so the lookup function is the
whole observable content for rendering). -/
def PyDict : Type := String → Option PyVal

/-- Python `d.update(other)`: after the call, a lookup finds `other`'s
value when `other` has the key and `d`'s previous value otherwise. -/
def pyDictUpdate (d other : PyDict) : PyDict :=
  fun k => match other k with
    | some v => some v
    | none => d k

/-- The dictionary literal `{'colour': colour_str}` built inside
`tweet_payload`. -/
def builtinContext (colourStr : String) : PyDict :=
  fun k => if k = "colour" then some (.strVal colourStr) else none

/-- The `colour_str` computation of `tweet_payload`: a string argument is
used as is, an enum member contributes `colour.name.lower()`. -/
def colourStrOf : ColourInput → Option String
  | .strVal s => some s
  | .enumVal c => some ((colourName c).toLower)
  | _ => none

/-- The context handed to `template.render` by `tweet_payload`:
`context = {'colour': colour_str}`, then
`context.update(self.__user_template_context)`, then
`context.update(jinja_context)` when a per-call context was given. -/
def tweetPayloadContext (colourStr : String) (staticCtx : PyDict)
    (jinjaCtx : Option PyDict) : PyDict :=
  let ctx := builtinContext colourStr
  let ctx := pyDictUpdate ctx staticCtx
  match jinjaCtx with
  | none => ctx
  | some d => pyDictUpdate ctx d

/-! ### The `TweepyWrapper` connection lifecycle (`tweepy_wrapper.py`) -/

/-- `TwitterAPIVersion(Enum)`: which vendor API generation the wrapper
drives (fixed at construction). -/
inductive TwitterAPIVersion where
  | V1
  | V2
deriving DecidableEq, Repr

/-- The `_TwitterAPIKeys` dataclass: access token and secret are optional
(absent while a token-generation flow is in progress). -/
structure TwitterAPIKeys where
  consumer_key : String
  consumer_secret : String
  access_token : Option String := none
  access_secret : Option String := none
deriving DecidableEq, Repr

/-- The construction-time configuration of a `TweepyWrapper` (the
constructor keyword arguments that survive into attributes). -/
structure WrapperConfig where
  suppress_tweeting : Bool
  suppress_connection : Bool
  generate_access : Bool
  api_version : TwitterAPIVersion
deriving DecidableEq, Repr

/-- The mutable state of a `TweepyWrapper`. Exactly one of
`__twitter_api` / `__twitter_client` exists on the object, selected by
the configured version, so one optional handle field models whichever of
the two the configured version uses; `user_id` models `__user_id`. -/
structure WrapperState where
  vendorHandle : Option Unit
  user_id : Option Int
deriving DecidableEq, Repr

/-- The freshly constructed wrapper: no handle, no user id. -/
def initialWrapperState : WrapperState :=
  { vendorHandle := none, user_id := none }

/-- Exceptions the wrapper methods raise (`RuntimeError`s in the source,
distinguished here by their messages) together with the Python built-in
errors the cornhole reducer can leak. -/
inductive PyErr where
  /-- `RuntimeError('Not connected to the twitter API')`. -/
  | notConnected
  /-- `RuntimeError('Environment Variable: <name> missing')`. -/
  | missingEnvVar (name : String)
  /-- `RuntimeError('generation of access tokens is not supported with environment variable mode')`. -/
  | unsupportedConfiguration
  /-- `FileNotFoundError` from opening a missing access-credentials file. -/
  | fileNotFound
  /-- `RuntimeError('Unhandled choice ...')` in the overwrite prompt. -/
  | unhandledChoice
  /-- `RuntimeError('Tweet Failed to delete')`. -/
  | deleteFailed
  /-- `KeyError` from `CheerLightColours[...]` name indexing. -/
  | keyError
  /-- `ValueError` from `int(...)` on a non-integer string. -/
  | valueError
deriving DecidableEq, Repr

/-- One externally visible side effect of a wrapper method: a credential
file access, an environment-variable read, an interactive step of the
OAuth PIN flow, or a vendor (network) call. Logging is not an effect. -/
inductive Effect where
  | readConsumerFile
  | readAccessFile
  | envRead (name : String)
  | getAuthUrl
  | promptPin
  | exchangeToken
  | promptOverwrite
  | writeAccessFile
  | vendorConstructV1 (keys : TwitterAPIKeys)
  | vendorConstructV2 (keys : TwitterAPIKeys)
  | verifyCredentials
  | vendorPost (payload : String)
  | vendorList (count : Nat)
  | vendorDelete (tweet_id : Int)
deriving DecidableEq, Repr

/-- The wrapper's environment: the filesystem contents at `key_path`,
the process environment, and the responses of the external collaborators
(user at the PIN prompt, vendor identity check). -/
structure World where
  consumerFileExists : Bool
  accessFileExists : Bool
  fileConsumerKey : String
  fileConsumerSecret : String
  fileAccessToken : String
  fileAccessSecret : String
  env : String → Option String
  authAccessToken : String
  authAccessSecret : String
  overwriteAnswer : String
  verifyUserId : Int

/-- The nested `get_keys_from_files` of `connect`: always reads the
consumer file; when no access token is to be generated, also reads the
access file (raising `FileNotFoundError` when it is absent). -/
def get_keys_from_files (w : World) (generateAccessToken : Bool) :
    List Effect × Except PyErr TwitterAPIKeys :=
  if generateAccessToken = false then
    if w.accessFileExists then
      ([.readConsumerFile, .readAccessFile],
       .ok { consumer_key := w.fileConsumerKey,
             consumer_secret := w.fileConsumerSecret,
             access_token := some w.fileAccessToken,
             access_secret := some w.fileAccessSecret })
    else
      ([.readConsumerFile], .error .fileNotFound)
  else
    ([.readConsumerFile],
     .ok { consumer_key := w.fileConsumerKey,
           consumer_secret := w.fileConsumerSecret })

/-- The nested `get_keys_from_env` of `connect`: reads the four
environment variables (all four `os.environ.get` calls run first), then
raises on the first absent one, in the fixed source order. -/
def get_keys_from_env (env : String → Option String) :
    List Effect × Except PyErr TwitterAPIKeys :=
  let effs : List Effect :=
    [.envRead "TWITTER_API_KEY", .envRead "TWITTER_API_SECRET",
     .envRead "TWITTER_ACCESS_TOKEN", .envRead "TWITTER_ACCESS_SECRET"]
  match env "TWITTER_API_KEY" with
  | none => (effs, .error (.missingEnvVar "TWITTER_API_KEY"))
  | some ck =>
    match env "TWITTER_API_SECRET" with
    | none => (effs, .error (.missingEnvVar "TWITTER_API_SECRET"))
    | some cs =>
      match env "TWITTER_ACCESS_TOKEN" with
      | none => (effs, .error (.missingEnvVar "TWITTER_ACCESS_TOKEN"))
      | some tok =>
        match env "TWITTER_ACCESS_SECRET" with
        | none => (effs, .error (.missingEnvVar "TWITTER_ACCESS_SECRET"))
        | some sec =>
          (effs, .ok { consumer_key := ck, consumer_secret := cs,
                       access_token := some tok, access_secret := some sec })

/-- The interactive OAuth PIN flow of `connect` (runs only when
`generate_access` is set after file-mode key resolution): fetch the
authorization URL, prompt for the PIN, exchange it; when an
access-credentials file already exists, prompt whether to overwrite it
('Y' writes the file and adopts the new pair, 'N' adopts it without
writing, anything else raises). When no access file exists the source
adopts nothing: the keys keep their unset access fields. -/
def interactivePinFlow (w : World) (keys : TwitterAPIKeys) :
    List Effect × Except PyErr TwitterAPIKeys :=
  let base : List Effect := [.getAuthUrl, .promptPin, .exchangeToken]
  if w.accessFileExists then
    let confirm := pyUpper w.overwriteAnswer.trim
    if confirm = "Y" then
      (base ++ [.promptOverwrite, .writeAccessFile],
       .ok { keys with access_token := some w.authAccessToken,
                       access_secret := some w.authAccessSecret })
    else if confirm = "N" then
      (base ++ [.promptOverwrite],
       .ok { keys with access_token := some w.authAccessToken,
                       access_secret := some w.authAccessSecret })
    else
      (base ++ [.promptOverwrite], .error .unhandledChoice)
  else
    (base, .ok keys)

/-- `TweepyWrapper.connect`. With `suppress_connection` set it only logs
(no effects, no state change). Otherwise it resolves keys from the
consumer file when one exists at `key_path` and from the environment
otherwise (token generation being unsupported in environment mode), runs
the interactive PIN flow when requested, constructs the vendor handle of
the configured version, and verifies credentials, recording the
authenticated user id (`_connect_verify`). -/
def connect (cfg : WrapperConfig) (w : World) (s : WrapperState) :
    List Effect × Except PyErr WrapperState :=
  if cfg.suppress_connection = true then
    ([], .ok s)
  else
    let keysRes :=
      if w.consumerFileExists then
        get_keys_from_files w cfg.generate_access
      else if cfg.generate_access = true then
        ([], .error .unsupportedConfiguration)
      else
        get_keys_from_env w.env
    match keysRes with
    | (effs, .error e) => (effs, .error e)
    | (effs, .ok keys) =>
      let authRes :=
        if cfg.generate_access = true then interactivePinFlow w keys
        else ([], .ok keys)
      match authRes with
      | (effs2, .error e) => (effs ++ effs2, .error e)
      | (effs2, .ok keys2) =>
        let constructEff :=
          match cfg.api_version with
          | .V1 => Effect.vendorConstructV1 keys2
          | .V2 => Effect.vendorConstructV2 keys2
        (effs ++ effs2 ++ [constructEff, .verifyCredentials],
         .ok { vendorHandle := some (), user_id := some w.verifyUserId })

/-- `TweepyWrapper.disconnect`: sets the configured version's handle to
`None` and `__user_id` to `None`, in any state. -/
def disconnect (cfg : WrapperConfig) (_s : WrapperState) : WrapperState :=
  match cfg.api_version with
  | .V1 => { vendorHandle := none, user_id := none }
  | .V2 => { vendorHandle := none, user_id := none }

/-- `TweepyWrapper.tweet`. `vendorId` is the id the vendor would assign
to the new post (`tweet.id` for V1, `tweet.data['id']` for V2). The
source assigns no attribute, so the object state is returned unchanged
in every branch. -/
def tweet (cfg : WrapperConfig) (s : WrapperState) (payload : String)
    (vendorId : Int) :
    List Effect × Except PyErr (WrapperState × Option Int) :=
  if cfg.suppress_connection = true then
    ([], .ok (s, none))
  else
    if cfg.suppress_tweeting = false then
      match cfg.api_version with
      | .V1 =>
        match s.vendorHandle with
        | none => ([], .error .notConnected)
        | some _ => ([.vendorPost payload], .ok (s, some vendorId))
      | .V2 =>
        match s.vendorHandle with
        | none => ([], .error .notConnected)
        | some _ => ([.vendorPost payload], .ok (s, some vendorId))
    else
      ([], .ok (s, none))

/-- The harmonised `Tweet` record of `tweepy_wrapper.py`. -/
structure Tweet where
  tweet_id : Int
  text : String
deriving DecidableEq, Repr

/-- `TweepyWrapper.user_tweets`. `resp` is the vendor's timeline
response, already as (id, text) pairs; both versions normalise it into
`Tweet` records. No attribute is assigned, so the state passes through. -/
def user_tweets (cfg : WrapperConfig) (s : WrapperState) (count : Nat)
    (resp : List (Int × String)) :
    List Effect × Except PyErr (WrapperState × List Tweet) :=
  match cfg.api_version with
  | .V1 =>
    match s.vendorHandle with
    | none => ([], .error .notConnected)
    | some _ =>
      ([.vendorList count],
       .ok (s, resp.map (fun p => { tweet_id := p.1, text := p.2 })))
  | .V2 =>
    match s.vendorHandle with
    | none => ([], .error .notConnected)
    | some _ =>
      ([.vendorList count],
       .ok (s, resp.map (fun p => { tweet_id := p.1, text := p.2 })))

/-- `TweepyWrapper.destroy_tweet`. For V1 the vendor answers with the
deleted status (`respId` models `tweet.id`); for V2 with a deletion flag
(`respDeleted`). A response that does not confirm the deletion raises
`RuntimeError('Tweet Failed to delete')`. No attribute is assigned. -/
def destroy_tweet (cfg : WrapperConfig) (s : WrapperState)
    (tweet_id : Int) (respId : Int) (respDeleted : Bool) :
    List Effect × Except PyErr WrapperState :=
  match cfg.api_version with
  | .V1 =>
    match s.vendorHandle with
    | none => ([], .error .notConnected)
    | some _ =>
      if respId ≠ tweet_id then ([.vendorDelete tweet_id], .error .deleteFailed)
      else ([.vendorDelete tweet_id], .ok s)
  | .V2 =>
    match s.vendorHandle with
    | none => ([], .error .notConnected)
    | some _ =>
      if respDeleted ≠ true then ([.vendorDelete tweet_id], .error .deleteFailed)
      else ([.vendorDelete tweet_id], .ok s)

/-! ### The cornhole MQTT reducer (`cornhole_mqtt_client_tweeter.py`) -/

/-- The `HoleState` dataclass: on/off sensor state and current colour of
one hole. -/
structure HoleState where
  state : Bool
  colour : CheerLightColours
deriving DecidableEq, Repr

/-- The mutable reducer state of `CornHoleTweeter`: the six-hole array
(`hole_state`, indexed 0..5 — modelled as a function on indices, of
which the source only ever touches 0..5 behind `in range(6)` guards),
the pending score colour (`__next_score_tweet_colour`) and the last-seen
username (`__current_username`). -/
structure CornState where
  hole_state : Nat → HoleState
  nextScoreTweetColour : Option CheerLightColours
  currentUsername : String

/-- The state built in `CornHoleTweeter.__init__`: six holes, all off,
all `RED`, no pending colour, empty username. -/
def initialCornState : CornState :=
  { hole_state := fun _ => { state := false, colour := .RED },
    nextScoreTweetColour := none,
    currentUsername := "" }

/-- A parsed inbound MQTT topic. The source classifies `message.topic`
with a fixed ladder of `re.match` patterns; each constructor is one rung
(`{id}` captured by `(\d+)`, hence a natural number), with `other` for
the unexpected-topic fall-through. -/
inductive Topic where
  | holesState (id : Nat)
  | holesColour (id : Nat)
  | holesHit (id : Nat)
  | gameCurrentScore
  | gameEndScore
  | gameUsername
  | sysUptime
  | other (raw : String)
deriving DecidableEq, Repr

/-- A rendered-and-posted message request of the reducer: `hit_tweet`
posts colour/score/username, `endgame_tweet` posts score/username (both
render their jinja template over exactly these context values and hand
the result to the inherited `tweet`). -/
inductive Post where
  | hit (colour : CheerLightColours) (score : Int) (username : String)
  | endgame (score : Int) (username : String)
deriving DecidableEq, Repr

/-- Value of a digit run, as Python `int()` reads it: `none` when some
character is not a decimal digit. -/
def digitsVal (l : List Char) : Option Nat :=
  l.foldl (fun acc c => match acc with
    | none => none
    | some n => if c.isDigit then some (n * 10 + (c.toNat - 48)) else none)
    (some 0)

/-- Model of Python `int(payload)` on a decoded MQTT payload: an
optional sign followed by a nonempty digit run parses to the integer,
anything else is `none`, standing for the `ValueError` raise (handled at
call sites). -/
def pyInt (s : String) : Option Int :=
  match s.data with
  | [] => none
  | '-' :: rest =>
    if rest = [] then none else (digitsVal rest).map (fun n => -(n : Int))
  | '+' :: rest =>
    if rest = [] then none else (digitsVal rest).map (fun n => (n : Int))
  | l => digitsVal l

/-- `CornHoleTweeter.on_message`, one inbound message. Returns the new
reducer state and the posts requested by this message, or the Python
exception the callback raises. Source behaviour embedded faithfully:

* `holes/{id}/state`: the source compares (`==`) instead of assigning,
  so no branch changes any state; unknown payloads and out-of-range ids
  are logged and dropped.
* `holes/{id}/colour`: `CheerLightColours[payload.upper()]` raises
  `KeyError` on an unknown name; out-of-range ids are logged and dropped.
* `holes/{id}/hit`: payload `valid` sets the pending colour to the
  hole's colour, `invalid` is a no-op, other payloads are logged and
  dropped, as are out-of-range ids.
* `game/current_score`: with a pending colour, posts one hit message
  with `int(payload)` (raising `ValueError` on a non-integer payload,
  with the pending colour left in place) and clears the pending colour;
  with no pending colour, does nothing.
* `game/end_score`: posts one endgame message with `int(payload)`
  (raising `ValueError` on a non-integer payload).
* `game/username`: records the payload.
* `$SYS/broker/uptime` and unexpected topics: log only. -/
def on_message (s : CornState) (topic : Topic) (payload : String) :
    Except PyErr (CornState × List Post) :=
  match topic with
  | .holesState id =>
    if id < 6 then
      if payload = "on" then .ok (s, [])
      else if payload = "off" then .ok (s, [])
      else .ok (s, [])
    else .ok (s, [])
  | .holesColour id =>
    if id < 6 then
      match colourFromName (pyUpper payload) with
      | some c =>
        let entry := { s.hole_state id with colour := c }
        .ok ({ s with hole_state := Function.update s.hole_state id entry }, [])
      | none => .error .keyError
    else .ok (s, [])
  | .holesHit id =>
    if id < 6 then
      if payload = "valid" then
        .ok ({ s with nextScoreTweetColour := some (s.hole_state id).colour }, [])
      else if payload = "invalid" then .ok (s, [])
      else .ok (s, [])
    else .ok (s, [])
  | .gameCurrentScore =>
    match s.nextScoreTweetColour with
    | some c =>
      match pyInt payload with
      | some n =>
        .ok ({ s with nextScoreTweetColour := none },
             [.hit c n s.currentUsername])
      | none => .error .valueError
    | none => .ok (s, [])
  | .gameEndScore =>
    match pyInt payload with
    | some n => .ok (s, [.endgame n s.currentUsername])
    | none => .error .valueError
  | .gameUsername => .ok ({ s with currentUsername := payload }, [])
  | .sysUptime => .ok (s, [])
  | .other _ => .ok (s, [])

/-! ## Supporting lemmas -/

/-- Every colour is a member of the enumeration list. -/
theorem mem_allColours (c : CheerLightColours) : c ∈ allColours := by
  cases c <;> simp [allColours]

/-- A string is a key of `CheerLightColours.__members__` exactly when it
is the name of some colour. -/
theorem mem_memberNames_iff (u : String) :
    u ∈ memberNames ↔ ∃ c, colourName c = u := by
  constructor
  · intro h
    simp only [memberNames, List.mem_map] at h
    obtain ⟨c, _, hc⟩ := h
    exact ⟨c, hc⟩
  · rintro ⟨c, rfl⟩
    exact List.mem_map_of_mem colourName (mem_allColours c)

/-! ## Claims -/

/-- C4: `verify_colour` raises `TypeError` (`InvalidType`) for every
input that is neither a `CheerLightColours` member nor a string (such as
an integer RGB code or `None`); for every string it succeeds exactly
when the uppercased string is one of the 11 known member names (the
case-insensitive match), and raises `ValueError` (`InvalidColour`)
otherwise. It is a `@staticmethod` over its argument alone, so it
mutates no state and is independent of the connection state. -/
theorem claim_C4_verify_colour :
    memberNames.length = 11 ∧
    (∀ c, verify_colour (.enumVal c) = .ok ()) ∧
    (∀ n, verify_colour (.intVal n) = .error .invalidType) ∧
    verify_colour .noneVal = .error .invalidType ∧
    (∀ s, verify_colour (.strVal s) = .ok () ↔
       ∃ c, colourName c = pyUpper s) ∧
    (∀ s, verify_colour (.strVal s) = .error .invalidColour ↔
       ¬ ∃ c, colourName c = pyUpper s) := by
  refine ⟨rfl, fun c => rfl, fun n => rfl, rfl, fun s => ?_, fun s => ?_⟩
  · rw [← mem_memberNames_iff]
    by_cases h : pyUpper s ∈ memberNames <;> simp [verify_colour, h]
  · rw [← mem_memberNames_iff]
    by_cases h : pyUpper s ∈ memberNames <;> simp [verify_colour, h]

/-- C5: the context handed to the template renderer by `tweet_payload`
is the ordered merge of the built-in `{'colour': ...}` dictionary, the
object-level static `user_template_context` and the per-call
`jinja_context`: on every key, the per-call value wins over the static
value, which wins over the built-in value, and a key absent from the
later layers keeps the earlier layer's value (when no per-call context
is supplied, the merge is just built-in overlaid by static). Each call
rebuilds the merge from the unchanged static layer, so earlier per-call
values do not leak into later calls. -/
theorem claim_C5_context_merge (colourStr : String)
    (staticCtx dynCtx : PyDict) (k : String) :
    (tweetPayloadContext colourStr staticCtx (some dynCtx) k =
       match dynCtx k with
       | some v => some v
       | none =>
         match staticCtx k with
         | some v => some v
         | none => builtinContext colourStr k) ∧
    (tweetPayloadContext colourStr staticCtx none k =
       match staticCtx k with
       | some v => some v
       | none => builtinContext colourStr k) := by
  constructor
  · simp only [tweetPayloadContext, pyDictUpdate]
  · simp only [tweetPayloadContext, pyDictUpdate]

/-- C10: `disconnect` is a total function of the state (callable in any
state, including Disconnected): it unconditionally resets the configured
version's vendor handle and the stored user id to `None`, so the result
is always the disconnected state and a second `disconnect` changes
nothing. -/
theorem claim_C10_disconnect_idempotent (cfg : WrapperConfig)
    (s : WrapperState) :
    disconnect cfg s = { vendorHandle := none, user_id := none } ∧
    (disconnect cfg s).vendorHandle = none ∧
    disconnect cfg (disconnect cfg s) = disconnect cfg s := by
  cases h : cfg.api_version <;> simp [disconnect, h]

/-! ## Sample inputs used by the witnesses -/

/-- A sample environment: consumer file absent, no environment
variables set. -/
def sampleWorld : World :=
  { consumerFileExists := false, accessFileExists := false,
    fileConsumerKey := "ck", fileConsumerSecret := "cs",
    fileAccessToken := "ftok", fileAccessSecret := "fsec",
    env := fun _ => none,
    authAccessToken := "atok", authAccessSecret := "asec",
    overwriteAnswer := "", verifyUserId := 42 }

/-- A configuration with `suppress_connection` set. -/
def cfgSuppressConn : WrapperConfig :=
  { suppress_tweeting := false, suppress_connection := true,
    generate_access := false, api_version := .V1 }

/-- A configuration with only `suppress_tweeting` set. -/
def cfgSuppressTweet : WrapperConfig :=
  { suppress_tweeting := true, suppress_connection := false,
    generate_access := false, api_version := .V1 }

/-- A V2 configuration with neither suppression flag set. -/
def cfgPlainV2 : WrapperConfig :=
  { suppress_tweeting := false, suppress_connection := false,
    generate_access := false, api_version := .V2 }

/-- A V2 environment-mode configuration requesting token generation. -/
def cfgEnvGen : WrapperConfig :=
  { suppress_tweeting := false, suppress_connection := false,
    generate_access := true, api_version := .V2 }

/-- A connected wrapper state. -/
def connectedState : WrapperState :=
  { vendorHandle := some (), user_id := some 42 }

/-- C1: with `suppress_connection` set, `connect` records no effect at
all (no credential file read, no environment read, no vendor call — it
only logs a warning) and leaves the state unchanged, and every
subsequent `tweet` call records no effect and returns `None` with a
warning, whatever the connection state and whatever the
`suppress_tweeting` flag (both are quantified here). -/
theorem claim_C1_suppress_connection (cfg : WrapperConfig) (w : World)
    (s : WrapperState) (payload : String) (vendorId : Int)
    (h : cfg.suppress_connection = true) :
    connect cfg w s = ([], .ok s) ∧
    tweet cfg s payload vendorId = ([], .ok (s, none)) := by
  constructor
  · simp [connect, h]
  · simp [tweet, h]

/-- Witness for C1 at a concrete configuration, world and state. -/
theorem claim_C1_witness :
    cfgSuppressConn.suppress_connection = true ∧
    (connect cfgSuppressConn sampleWorld initialWrapperState =
       ([], .ok initialWrapperState) ∧
     tweet cfgSuppressConn initialWrapperState "hello" 7 =
       ([], .ok (initialWrapperState, none))) :=
  ⟨rfl, claim_C1_suppress_connection cfgSuppressConn sampleWorld
     initialWrapperState "hello" 7 rfl⟩

/-- C2: with `suppress_tweeting` set and `suppress_connection` clear,
`tweet` records no effect (in particular no vendor posting call) and
returns `None`, for every payload and every connection state — the
source takes the warning branch before any handle check, so Connected
and Disconnected states behave identically. -/
theorem claim_C2_suppress_tweeting (cfg : WrapperConfig)
    (s : WrapperState) (payload : String) (vendorId : Int)
    (h1 : cfg.suppress_tweeting = true)
    (h2 : cfg.suppress_connection = false) :
    tweet cfg s payload vendorId = ([], .ok (s, none)) := by
  simp [tweet, h1, h2]

/-- Witness for C2 at a concrete configuration, in the Connected state. -/
theorem claim_C2_witness :
    cfgSuppressTweet.suppress_tweeting = true ∧
    cfgSuppressTweet.suppress_connection = false ∧
    tweet cfgSuppressTweet connectedState "red alert" 9 =
      ([], .ok (connectedState, none)) :=
  ⟨rfl, rfl, claim_C2_suppress_tweeting cfgSuppressTweet connectedState
     "red alert" 9 rfl rfl⟩

/-- C3: with both suppression flags clear and the configured version's
vendor handle `None`, `tweet`, `user_tweets` and `destroy_tweet` all
raise `RuntimeError('Not connected to the twitter API')`, for either
configured API version (quantified through the configuration), with no
vendor effect recorded; none of these methods assigns any attribute, so
no state change occurs (the embedding returns no successor state on the
error path, mirroring the raise before any mutation). -/
theorem claim_C3_not_connected (cfg : WrapperConfig) (s : WrapperState)
    (payload : String) (vendorId : Int) (count : Nat)
    (resp : List (Int × String)) (tid respId : Int) (respDeleted : Bool)
    (h1 : cfg.suppress_connection = false)
    (h2 : cfg.suppress_tweeting = false)
    (h3 : s.vendorHandle = none) :
    tweet cfg s payload vendorId = ([], .error .notConnected) ∧
    user_tweets cfg s count resp = ([], .error .notConnected) ∧
    destroy_tweet cfg s tid respId respDeleted =
      ([], .error .notConnected) := by
  cases hv : cfg.api_version <;>
    simp [tweet, user_tweets, destroy_tweet, h1, h2, h3, hv]

/-- Witness for C3: a freshly constructed (Disconnected) V2 client. -/
theorem claim_C3_witness :
    cfgPlainV2.suppress_connection = false ∧
    cfgPlainV2.suppress_tweeting = false ∧
    initialWrapperState.vendorHandle = none ∧
    (tweet cfgPlainV2 initialWrapperState "x" 1 =
       ([], .error .notConnected) ∧
     user_tweets cfgPlainV2 initialWrapperState 10 [] =
       ([], .error .notConnected) ∧
     destroy_tweet cfgPlainV2 initialWrapperState 5 5 true =
       ([], .error .notConnected)) :=
  ⟨rfl, rfl, rfl, claim_C3_not_connected cfgPlainV2 initialWrapperState
     "x" 1 10 [] 5 5 true rfl rfl rfl⟩

/-- The effect trace of `get_keys_from_env`: the four environment reads,
in source order. -/
def envReadEffects : List Effect :=
  [.envRead "TWITTER_API_KEY", .envRead "TWITTER_API_SECRET",
   .envRead "TWITTER_ACCESS_TOKEN", .envRead "TWITTER_ACCESS_SECRET"]

/-- The behaviour claim C9 asserts of `connect` in environment mode
without token generation, stated from the claim's words: all four
environment variables are read, the first absent one (in the fixed
order) names the raised error, and with all four present the client is
constructed from exactly those four values and verified. This is the
specification side of the refinement proved in the C9 theorem. -/
def envModeSpec (version : TwitterAPIVersion)
    (env : String → Option String) (uid : Int) :
    List Effect × Except PyErr WrapperState :=
  match env "TWITTER_API_KEY", env "TWITTER_API_SECRET",
        env "TWITTER_ACCESS_TOKEN", env "TWITTER_ACCESS_SECRET" with
  | none, _, _, _ =>
    (envReadEffects, .error (.missingEnvVar "TWITTER_API_KEY"))
  | some _, none, _, _ =>
    (envReadEffects, .error (.missingEnvVar "TWITTER_API_SECRET"))
  | some _, some _, none, _ =>
    (envReadEffects, .error (.missingEnvVar "TWITTER_ACCESS_TOKEN"))
  | some _, some _, some _, none =>
    (envReadEffects, .error (.missingEnvVar "TWITTER_ACCESS_SECRET"))
  | some ck, some cs, some tok, some sec =>
    (envReadEffects ++
       [(match version with
         | .V1 => Effect.vendorConstructV1
             { consumer_key := ck, consumer_secret := cs,
               access_token := some tok, access_secret := some sec }
         | .V2 => Effect.vendorConstructV2
             { consumer_key := ck, consumer_secret := cs,
               access_token := some tok, access_secret := some sec }),
        .verifyCredentials],
     .ok { vendorHandle := some (), user_id := some uid })

/-- C9: with no consumer-credentials file at `key_path` (environment
mode) and connection not suppressed: requesting token generation makes
`connect` raise the unsupported-configuration error with an empty effect
trace — in particular before any environment variable is read — and
without token generation `connect` behaves exactly as `envModeSpec`:
it reads the four `TWITTER_*` variables and raises the error naming the
first absent one, or, with all four present, builds the vendor client
from those four values. -/
theorem claim_C9_env_mode (cfg cfgGen : WrapperConfig) (w : World)
    (s : WrapperState)
    (hfile : w.consumerFileExists = false)
    (hsupG : cfgGen.suppress_connection = false)
    (hgenG : cfgGen.generate_access = true)
    (hsup : cfg.suppress_connection = false)
    (hgen : cfg.generate_access = false) :
    connect cfgGen w s = ([], .error .unsupportedConfiguration) ∧
    connect cfg w s = envModeSpec cfg.api_version w.env w.verifyUserId := by
  constructor
  · simp [connect, hsupG, hgenG, hfile]
  · cases hK : w.env "TWITTER_API_KEY" <;>
      cases hS : w.env "TWITTER_API_SECRET" <;>
        cases hT : w.env "TWITTER_ACCESS_TOKEN" <;>
          cases hA : w.env "TWITTER_ACCESS_SECRET" <;>
            cases hv : cfg.api_version <;>
              simp [connect, get_keys_from_env, envModeSpec,
                    envReadEffects, hfile, hsup, hgen, hK, hS, hT, hA, hv]

/-- Witness for C9 at a concrete world whose environment is empty: the
generation request fails unsupported, and the no-generation connect
reports the first missing variable, `TWITTER_API_KEY`. -/
theorem claim_C9_witness :
    sampleWorld.consumerFileExists = false ∧
    cfgEnvGen.suppress_connection = false ∧
    cfgEnvGen.generate_access = true ∧
    cfgPlainV2.suppress_connection = false ∧
    cfgPlainV2.generate_access = false ∧
    envModeSpec cfgPlainV2.api_version sampleWorld.env
        sampleWorld.verifyUserId =
      (envReadEffects, .error (.missingEnvVar "TWITTER_API_KEY")) ∧
    (connect cfgEnvGen sampleWorld initialWrapperState =
       ([], .error .unsupportedConfiguration) ∧
     connect cfgPlainV2 sampleWorld initialWrapperState =
       envModeSpec cfgPlainV2.api_version sampleWorld.env
         sampleWorld.verifyUserId) :=
  ⟨rfl, rfl, rfl, rfl, rfl, rfl,
   claim_C9_env_mode cfgPlainV2 cfgEnvGen sampleWorld initialWrapperState
     rfl rfl rfl rfl rfl⟩

/-- Hole entry used by the cornhole witnesses: off, blue. -/
def holeBlueEntry : HoleState := { state := false, colour := .BLUE }

/-- The reducer state after `holes/2/colour = blue` from the initial
state. -/
def holeBlueState : CornState :=
  { initialCornState with
      hole_state := Function.update initialCornState.hole_state 2 holeBlueEntry }

/-- The reducer state after `holes/2/colour = blue` followed by
`holes/2/hit = valid`. -/
def pendingBlueState : CornState :=
  { holeBlueState with nextScoreTweetColour := some .BLUE }

/-- C6: a `holes/{id}/hit` message with payload `valid` and id in 0..5
sets the pending score colour to hole id's current colour (posting
nothing); a `game/current_score` message with an integer payload and a
pending colour posts exactly one hit message carrying that colour, the
parsed score and the current username, and clears the pending colour; a
`game/current_score` message with no pending colour posts nothing and
changes nothing — so a second score message after the first consumed the
pending colour produces no post. -/
theorem claim_C6_hit_then_score (s s1 s2 : CornState) (id : Nat)
    (c : CheerLightColours) (p1 p2 : String) (n : Int)
    (hid : id < 6) (hpend : s1.nextScoreTweetColour = some c)
    (hint : pyInt p1 = some n) (hnone : s2.nextScoreTweetColour = none) :
    on_message s (.holesHit id) "valid" =
      .ok ({ s with nextScoreTweetColour := some (s.hole_state id).colour }, []) ∧
    on_message s1 .gameCurrentScore p1 =
      .ok ({ s1 with nextScoreTweetColour := none },
           [.hit c n s1.currentUsername]) ∧
    on_message s2 .gameCurrentScore p2 = .ok (s2, []) := by
  refine ⟨?_, ?_, ?_⟩
  · simp [on_message, hid]
  · simp [on_message, hpend, hint]
  · simp [on_message, hnone]

/-- Witness for C6, realising the spec's example run: hole 2 is blue, a
valid hit on hole 2 marks blue pending, `current_score = 5` posts one
blue/5 message and clears, and a further `current_score = 7` (state back
to no pending colour) posts nothing. -/
theorem claim_C6_witness :
    (2 : Nat) < 6 ∧
    pendingBlueState.nextScoreTweetColour = some .BLUE ∧
    pyInt "5" = some 5 ∧
    holeBlueState.nextScoreTweetColour = none ∧
    (on_message holeBlueState (.holesHit 2) "valid" =
       .ok ({ holeBlueState with
                nextScoreTweetColour := some (holeBlueState.hole_state 2).colour },
            []) ∧
     on_message pendingBlueState .gameCurrentScore "5" =
       .ok ({ pendingBlueState with nextScoreTweetColour := none },
            [.hit .BLUE 5 pendingBlueState.currentUsername]) ∧
     on_message holeBlueState .gameCurrentScore "7" =
       .ok (holeBlueState, [])) :=
  ⟨by decide, rfl, by decide, rfl,
   claim_C6_hit_then_score holeBlueState pendingBlueState holeBlueState
     2 .BLUE "5" "7" 5 (by decide) rfl (by decide) rfl⟩

/-- C7 counterexample: the claim says the callback never raises, but an
unknown colour name on `holes/0/colour` makes `on_message` raise the
`KeyError` of `CheerLightColours[payload.upper()]`. -/
theorem claim_C7_counterexample :
    on_message initialCornState (.holesColour 0) "darkblue" =
      .error .keyError := by
  have h : colourFromName (pyUpper "darkblue") = none := by decide
  simp [on_message, h]

/-- C7 as amended: hole messages with id outside 0..5 (any payload), and
`state` / `hit` messages with in-range id whose payload fails its match,
are logged and dropped with no state mutation and no raise; but an
unknown colour name on an in-range `holes/{id}/colour` raises `KeyError`
out of the callback, and a non-integer payload raises `ValueError` on
`game/end_score` and on `game/current_score` when a pending colour is
set. -/
theorem claim_C7_amended_drop_or_raise (s sP sE : CornState)
    (idBig idOk : Nat) (pAny pState pHit pColour pScore pEnd : String)
    (c : CheerLightColours)
    (hbig : ¬ idBig < 6) (hok : idOk < 6)
    (hpS1 : pState ≠ "on") (hpS2 : pState ≠ "off")
    (hpH1 : pHit ≠ "valid") (hpH2 : pHit ≠ "invalid")
    (hpC : colourFromName (pyUpper pColour) = none)
    (hpend : sP.nextScoreTweetColour = some c)
    (hscore : pyInt pScore = none) (hend : pyInt pEnd = none) :
    on_message s (.holesState idBig) pAny = .ok (s, []) ∧
    on_message s (.holesColour idBig) pAny = .ok (s, []) ∧
    on_message s (.holesHit idBig) pAny = .ok (s, []) ∧
    on_message s (.holesState idOk) pState = .ok (s, []) ∧
    on_message s (.holesHit idOk) pHit = .ok (s, []) ∧
    on_message s (.holesColour idOk) pColour = .error .keyError ∧
    on_message sP .gameCurrentScore pScore = .error .valueError ∧
    on_message sE .gameEndScore pEnd = .error .valueError := by
  refine ⟨?_, ?_, ?_, ?_, ?_, ?_, ?_, ?_⟩
  · simp [on_message, hbig]
  · simp [on_message, hbig]
  · simp [on_message, hbig]
  · simp [on_message, hok, hpS1, hpS2]
  · simp [on_message, hok, hpH1, hpH2]
  · simp [on_message, hok, hpC]
  · simp [on_message, hpend, hscore]
  · simp [on_message, hend]

/-- Witness for the amended C7 at concrete messages: hole 9 dropped on
all three topics, unparseable `state` and `hit` payloads dropped, and
the three raising shapes raised. -/
theorem claim_C7_witness :
    ¬ (9 : Nat) < 6 ∧
    (0 : Nat) < 6 ∧
    ("sideways" : String) ≠ "on" ∧
    ("sideways" : String) ≠ "off" ∧
    ("bounce" : String) ≠ "valid" ∧
    ("bounce" : String) ≠ "invalid" ∧
    colourFromName (pyUpper "darkgreen") = none ∧
    pendingBlueState.nextScoreTweetColour = some .BLUE ∧
    pyInt "ten" = none ∧
    pyInt "NaN" = none ∧
    (on_message initialCornState (.holesState 9) "on" =
       .ok (initialCornState, []) ∧
     on_message initialCornState (.holesColour 9) "on" =
       .ok (initialCornState, []) ∧
     on_message initialCornState (.holesHit 9) "on" =
       .ok (initialCornState, []) ∧
     on_message initialCornState (.holesState 0) "sideways" =
       .ok (initialCornState, []) ∧
     on_message initialCornState (.holesHit 0) "bounce" =
       .ok (initialCornState, []) ∧
     on_message initialCornState (.holesColour 0) "darkgreen" =
       .error .keyError ∧
     on_message pendingBlueState .gameCurrentScore "ten" =
       .error .valueError ∧
     on_message initialCornState .gameEndScore "NaN" =
       .error .valueError) :=
  ⟨by decide, by decide, by decide, by decide, by decide, by decide,
   by decide, rfl, by decide, by decide,
   claim_C7_amended_drop_or_raise initialCornState pendingBlueState
     initialCornState 9 0 "on" "sideways" "bounce" "darkgreen" "ten" "NaN"
     .BLUE (by decide) (by decide) (by decide) (by decide) (by decide)
     (by decide) (by decide) rfl (by decide) (by decide)⟩

/-- C8 (code bug): the claim says a `holes/{id}/state` message with
payload `on` sets `hole[id].on_off` true and `off` sets it false; the
source instead compares (`==`) where it meant to assign (`=`), so the
handler never changes anything: for every state, id and payload the
result is the unchanged state, and in particular after processing
`holes/0/state = on` from the initial state hole 0 is still off. -/
theorem claim_C8_state_message_noop :
    (∀ s id payload, on_message s (.holesState id) payload = .ok (s, [])) ∧
    on_message initialCornState (.holesState 0) "on" =
      .ok (initialCornState, []) ∧
    (initialCornState.hole_state 0).state = false := by
  refine ⟨fun s id payload => ?_, rfl, rfl⟩
  simp only [on_message]
  split_ifs <;> rfl

end CheerLights
